import Mathlib

/-!
Verification development for the sandy Django backend.

This file gives a shallow embedding, in Lean, of the parts of the backend
exercised by the specification: the raw-SQL service layer
(`backend/services/postgresql_service.py`), the custom JWT authentication
class (`backend/core/authentication.py`), and the DRF views for users,
chat, recommendations and profiles.  The database is modelled as lists of
row records, SQL statements as list operations, wall-clock time as a `Nat`
tick counter, and the external bcrypt / PyJWT / simplejwt libraries as
ideal structural models (a hash check succeeds exactly when the same
password is presented; a token decodes exactly when the secret matches and
it has not expired).  Randomness (salts, fresh row ids) and the clock are
passed as explicit parameters.
-/

namespace Sandy

/-! ## JSON values (JSONB columns) -/

/-- A JSON value, as stored in a Postgres `JSONB` column. -/
inductive Json where
  | null : Json
  | bool : Bool → Json
  | num : Int → Json
  | str : String → Json
  | arr : List Json → Json
  | obj : List (String × Json) → Json
deriving Repr

/-- Python truthiness of a JSON value returned for a JSONB column:
`None`, `False`, `0`, `""`, `[]` and `{}` are falsy. -/
def Json.pyTruthy : Json → Bool
  | .null => false
  | .bool b => b
  | .num n => n != 0
  | .str s => s != ""
  | .arr xs => !xs.isEmpty
  | .obj fs => !fs.isEmpty

/-- Python `x or dflt` applied to an optional JSONB column value
(`row.get('context_data') or {}`). -/
def pyJsonOr (x : Option Json) (dflt : Json) : Json :=
  match x with
  | none => dflt
  | some j => if j.pyTruthy then j else dflt

/-- A JSON value is a dict or SQL `NULL` — the shape produced by
`save_conversation`, whose `context_data` argument is `Optional[Dict]`. -/
def ctxIsDictOrNull : Option Json → Prop
  | none => True
  | some (.obj _) => True
  | some _ => False

instance : DecidablePred ctxIsDictOrNull := by
  intro x
  unfold ctxIsDictOrNull
  match x with
  | none => exact inferInstanceAs (Decidable True)
  | some (.obj _) => exact inferInstanceAs (Decidable True)
  | some .null | some (.bool _) | some (.num _) | some (.str _) | some (.arr _) =>
      exact inferInstanceAs (Decidable False)

/-! ## bcrypt (ideal model)

`bcrypt.hashpw(password, gensalt(rounds))` is modelled structurally: the
produced hash records the salt and the password it was computed from, and
`bcrypt.checkpw` succeeds exactly when the same password is presented.
`render` is the string form actually stored in the `VARCHAR` column. -/

structure BcryptHash where
  salt : Nat
  pwd : String
deriving Repr, DecidableEq

def bcrypt_hashpw (password : String) (salt : Nat) : BcryptHash :=
  ⟨salt, password⟩

def bcrypt_checkpw (password : String) (stored : BcryptHash) : Bool :=
  stored.pwd == password

/-- The modular-crypt string form of a bcrypt hash, e.g. `$2b$12$...`. -/
def BcryptHash.render (h : BcryptHash) : String :=
  "$2b$" ++ Nat.repr h.salt ++ "$" ++ h.pwd

/-! ## JWT (ideal model of PyJWT / simplejwt token objects) -/

structure JwtPayload where
  userId : Nat
  exp : Nat
deriving Repr, DecidableEq

/-- An encoded token: the payload together with the secret it was signed
with.  Two tokens are equal exactly when bytes would coincide. -/
structure JwtToken where
  payload : JwtPayload
  secret : String
deriving Repr, DecidableEq

def jwt_encode (p : JwtPayload) (secret : String) : JwtToken :=
  ⟨p, secret⟩

/-- `jwt.decode(token, secret, algorithms=['HS256'])` at time `now`:
succeeds iff the signature matches and the `exp` claim is in the future. -/
def jwt_decode (t : JwtToken) (secret : String) (now : Nat) : Option JwtPayload :=
  if t.secret == secret && now < t.payload.exp then some t.payload else none

/-! ## Database rows (tables created by `PostgreSQLService.initialize`) -/

structure UserRow where
  id : Nat
  email : String
  password_hash : BcryptHash
  first_name : Option String
  last_name : Option String
  is_verified : Bool
  created_at : Nat
  updated_at : Nat
deriving Repr

structure SessionRow where
  id : Nat
  user_id : Nat
  token : JwtToken
  expires_at : Nat
  created_at : Nat
  last_accessed : Nat
deriving Repr, DecidableEq

structure ProfileRow where
  id : Nat
  user_id : Nat
  profile_data : Json
deriving Repr

structure ConversationRow where
  id : Nat
  user_id : Nat
  message_type : String
  message_text : String
  context_data : Option Json
  timestamp : Nat
deriving Repr

structure InteractionRow where
  id : Nat
  user_id : Nat
  interaction_type : String
  interaction_data : Option Json
  success : Bool
  timestamp : Nat
deriving Repr

structure RecommendationRow where
  id : Nat
  user_id : Nat
  recommendation_type : String
  recommendation_data : Json
  was_helpful : Option Bool
  feedback : Option String
  timestamp : Nat
deriving Repr

/-- The raw-SQL database state: one list of rows per table. -/
structure DbState where
  users : List UserRow
  sessions : List SessionRow
  profiles : List ProfileRow
  conversations : List ConversationRow
  interactions : List InteractionRow
  recommendations : List RecommendationRow
deriving Repr

/-- Service configuration (`JWT_SECRET`, `BCRYPT_ROUNDS`, `JWT_EXPIRES_IN`
resolved to seconds). -/
structure Service where
  jwt_secret : String
  jwtExpSeconds : Nat
deriving Repr

def secondsPerDay : Nat := 86400

/-! ## ORDER BY … DESC as an insertion sort on a `Nat` key -/

def insertDesc {α : Type} (key : α → Nat) (x : α) : List α → List α
  | [] => [x]
  | y :: ys => if key y ≤ key x then x :: y :: ys else y :: insertDesc key x ys

/-- `ORDER BY key DESC`: a sort placing larger keys first. -/
def sortDesc {α : Type} (key : α → Nat) : List α → List α
  | [] => []
  | x :: xs => insertDesc key x (sortDesc key xs)

theorem insertDesc_perm {α : Type} (key : α → Nat) (x : α) (l : List α) :
    List.Perm (insertDesc key x l) (x :: l) := by
  induction l with
  | nil => simp [insertDesc]
  | cons y ys ih =>
    by_cases h : key y ≤ key x
    · simp [insertDesc, h]
    · simp only [insertDesc, if_neg h]
      exact List.Perm.trans (List.Perm.cons y ih) (List.Perm.swap x y ys)

theorem sortDesc_perm {α : Type} (key : α → Nat) (l : List α) :
    List.Perm (sortDesc key l) l := by
  induction l with
  | nil => simp [sortDesc]
  | cons x xs ih =>
    exact List.Perm.trans (insertDesc_perm key x _) (List.Perm.cons x ih)

theorem mem_sortDesc {α : Type} {key : α → Nat} {x : α} {l : List α} :
    x ∈ sortDesc key l ↔ x ∈ l :=
  (sortDesc_perm key l).mem_iff

theorem pairwise_insertDesc {α : Type} {key : α → Nat} {x : α} {l : List α}
    (h : l.Pairwise (fun a b => key b ≤ key a)) :
    (insertDesc key x l).Pairwise (fun a b => key b ≤ key a) := by
  induction l with
  | nil => simp [insertDesc]
  | cons y ys ih =>
    rcases List.pairwise_cons.mp h with ⟨hy, hys⟩
    by_cases hxy : key y ≤ key x
    · simp only [insertDesc, if_pos hxy]
      refine List.pairwise_cons.mpr ⟨?_, h⟩
      intro b hb
      rcases List.mem_cons.mp hb with hby | hb
      · exact hby ▸ hxy
      · exact le_trans (hy b hb) hxy
    · simp only [insertDesc, if_neg hxy]
      refine List.pairwise_cons.mpr ⟨?_, ih hys⟩
      intro b hb
      rcases List.mem_cons.mp ((insertDesc_perm key x ys).mem_iff.mp hb) with hbx | hby
      · exact hbx ▸ le_of_not_le hxy
      · exact hy b hby

theorem pairwise_sortDesc {α : Type} (key : α → Nat) (l : List α) :
    (sortDesc key l).Pairwise (fun a b => key b ≤ key a) := by
  induction l with
  | nil => simp [sortDesc]
  | cons x xs ih => exact pairwise_insertDesc ih

/-- In a descending-sorted list, an element whose key strictly dominates
every other element is at the head. -/
theorem head_of_strict_max {α : Type} {key : α → Nat} {l : List α} {x : α}
    (hp : l.Pairwise (fun a b => key b ≤ key a))
    (hx : x ∈ l) (hdom : ∀ y ∈ l, y = x ∨ key y < key x) :
    l.head? = some x := by
  cases l with
  | nil => cases hx
  | cons h t =>
    rcases hdom h (List.mem_cons_self h t) with hhx | hlt
    · simp [hhx]
    · exfalso
      rcases List.mem_cons.mp hx with hxh | hxt
      · exact lt_irrefl _ (hxh ▸ hlt)
      · rcases List.pairwise_cons.mp hp with ⟨hh, _⟩
        exact absurd (hh x hxt) (not_le_of_lt hlt)

/-! ## PostgreSQLService operations

Each method of `backend/services/postgresql_service.py` becomes a function
on `DbState`.  `NOW()` / `CURRENT_TIMESTAMP` is the explicit `now`
parameter; fresh UUIDs become explicit `Nat` id parameters; a raised
exception becomes `Except.error` with the exception message, paired with
the state as left by the writes performed before the raise. -/

/-- The user dictionary returned by register / login / verify_token. -/
structure PublicUser where
  id : Nat
  email : String
  first_name : Option String
  last_name : Option String
  is_verified : Bool
  created_at : Nat
  updated_at : Nat
deriving Repr

def UserRow.toPublic (u : UserRow) : PublicUser :=
  ⟨u.id, u.email, u.first_name, u.last_name, u.is_verified, u.created_at, u.updated_at⟩

/-- `_generate_jwt`: payload `{'userId': user_id, 'exp': now + expiry}`
signed with the service secret. -/
def generate_jwt (svc : Service) (now user_id : Nat) : JwtToken :=
  jwt_encode ⟨user_id, now + svc.jwtExpSeconds⟩ svc.jwt_secret

/-- `_create_session`: inserts a `user_sessions` row expiring in 7 days. -/
def create_session (st : DbState) (sessionId user_id : Nat) (token : JwtToken)
    (now : Nat) : DbState :=
  {st with sessions :=
    st.sessions ++ [⟨sessionId, user_id, token, now + 7 * secondsPerDay, now, now⟩]}

/-- `_cleanup_expired_sessions`:
`DELETE FROM user_sessions WHERE expires_at < NOW()`. -/
def cleanup_expired_sessions (st : DbState) (now : Nat) : DbState :=
  {st with sessions := st.sessions.filter (fun s => !(s.expires_at < now))}

structure AuthOk where
  user : PublicUser
  token : JwtToken
deriving Repr

/-- `register_user`: reject an existing email, hash the password with
bcrypt, insert the users row, then mint a JWT and a session row. -/
def register_user (svc : Service) (st : DbState) (now salt newUserId newSessionId : Nat)
    (email password : String) (first_name last_name : Option String) :
    Except String AuthOk × DbState :=
  if !(st.users.filter (fun u => u.email == email)).isEmpty then
    (.error "User already exists", st)
  else
    let password_hash := bcrypt_hashpw password salt
    let row : UserRow := ⟨newUserId, email, password_hash, first_name, last_name, false, now, now⟩
    let st1 := {st with users := st.users ++ [row]}
    let token := generate_jwt svc now newUserId
    let st2 := create_session st1 newSessionId newUserId token now
    (.ok ⟨row.toPublic, token⟩, st2)

/-- `login_user`: look the user up by email, check the password with
bcrypt, then mint a token, purge expired sessions and insert a session. -/
def login_user (svc : Service) (st : DbState) (now newSessionId : Nat)
    (email password : String) : Except String AuthOk × DbState :=
  match (st.users.filter (fun u => u.email == email)).head? with
  | none => (.error "Invalid credentials", st)
  | some user_row =>
    if !bcrypt_checkpw password user_row.password_hash then
      (.error "Invalid credentials", st)
    else
      let token := generate_jwt svc now user_row.id
      let st1 := cleanup_expired_sessions st now
      let st2 := create_session st1 newSessionId user_row.id token now
      (.ok ⟨user_row.toPublic, token⟩, st2)

/-- `verify_token`: decode the JWT (returning `None` on any failure), then
select the joined session/user row with that token and a future
`expires_at`; on a hit, touch `last_accessed` and return the user. -/
def verify_token (svc : Service) (st : DbState) (now : Nat) (token : JwtToken) :
    Option PublicUser × DbState :=
  match jwt_decode token svc.jwt_secret now with
  | none => (none, st)
  | some _ =>
    match ((st.sessions.filter
        (fun s => s.token == token && now < s.expires_at)).filterMap
      (fun s => (st.users.find? (fun u => u.id == s.user_id)).map (fun u => (s, u)))).head? with
    | none => (none, st)
    | some (s, u) =>
      ( some u.toPublic,
        {st with sessions := (st.sessions.map
          (fun t => if t.id == s.id then {t with last_accessed := now} else t))} )

/-- `save_conversation`: insert a conversations row (the `json.dumps` /
JSONB parse round-trip is the identity on the JSON value). -/
def save_conversation (st : DbState) (newId user_id : Nat)
    (message_type message_text : String) (context_data : Option Json)
    (now : Nat) : DbState :=
  {st with conversations :=
    st.conversations ++ [⟨newId, user_id, message_type, message_text, context_data, now⟩]}

/-- The dictionary built per row by `get_conversation_history`.  The
Python `row.get('id') or "msg_..."` fallback never fires because `id` is
a non-NULL primary key, so `id` is the row id. -/
structure ConversationEntry where
  id : Nat
  userId : Nat
  role : String
  type : String
  content : String
  context : Json
  timestamp : Nat
deriving Repr

def conversationEntry (user_id : Nat) (r : ConversationRow) : ConversationEntry :=
  ⟨r.id, user_id, r.message_type, r.message_type, r.message_text,
    pyJsonOr r.context_data (Json.obj []), r.timestamp⟩

/-- `get_conversation_history`: `SELECT … WHERE user_id = %s ORDER BY
timestamp DESC LIMIT %s`, then the Python `reversed(...)` and per-row
dictionary construction. -/
def get_conversation_history (st : DbState) (user_id limit : Nat) :
    List ConversationEntry :=
  (((sortDesc (fun r => r.timestamp)
      (st.conversations.filter (fun r => r.user_id == user_id))).take limit).reverse).map
    (conversationEntry user_id)

/-- `save_recommendation`: insert a recommendations row with NULL
`was_helpful` and `feedback`. -/
def save_recommendation (st : DbState) (newId user_id : Nat)
    (recommendation_type : String) (recommendation_data : Json) (now : Nat) : DbState :=
  {st with recommendations := st.recommendations ++
    [⟨newId, user_id, recommendation_type, recommendation_data, none, none, now⟩]}

/-- `update_recommendation_feedback`: `UPDATE recommendations SET
was_helpful = %s, feedback = %s WHERE id = %s AND user_id = %s`. -/
def update_recommendation_feedback (st : DbState) (user_id recommendation_id : Nat)
    (was_helpful : Bool) (feedback : Option String) : DbState :=
  {st with recommendations := st.recommendations.map (fun r =>
    if r.id == recommendation_id && r.user_id == user_id then
      {r with was_helpful := some was_helpful, feedback := feedback}
    else r)}

/-- The dictionary built per row by `get_recommendation_history`. -/
structure RecommendationEntry where
  id : Nat
  type : String
  data : Json
  wasHelpful : Option Bool
  feedback : Option String
  timestamp : Nat
deriving Repr

def recommendationEntry (r : RecommendationRow) : RecommendationEntry :=
  ⟨r.id, r.recommendation_type, r.recommendation_data, r.was_helpful, r.feedback,
    r.timestamp⟩

/-- `get_recommendation_history`: `SELECT … WHERE user_id = %s ORDER BY
timestamp DESC LIMIT %s` mapped to result dictionaries. -/
def get_recommendation_history (st : DbState) (user_id limit : Nat) :
    List RecommendationEntry :=
  ((sortDesc (fun r => r.timestamp)
      (st.recommendations.filter (fun r => r.user_id == user_id))).take limit).map
    recommendationEntry

/-- `cleanup_old_data`: delete conversations past the conversation
retention window, user_interactions past the analytics retention window,
and expired user_sessions. -/
def cleanup_old_data (st : DbState) (now retention_days analytics_retention : Nat) :
    DbState :=
  {st with
    conversations := st.conversations.filter
      (fun r => !(r.timestamp < now - retention_days * secondsPerDay)),
    interactions := st.interactions.filter
      (fun r => !(r.timestamp < now - analytics_retention * secondsPerDay)),
    sessions := st.sessions.filter (fun s => !(s.expires_at < now))}

/-! ## Django ORM side: users app (`backend/users/views.py`) -/

/-- A row of the Django auth user table (`User(AbstractUser)`):
`username` is the `USERNAME_FIELD`; `is_active` defaults to true. -/
structure DjangoUser where
  id : Nat
  username : String
  email : String
  password : BcryptHash
  first_name : String
  last_name : String
  is_active : Bool
deriving Repr, DecidableEq

/-- Modelled from the spec: the repository's Django settings module, which
selects the hasher used by `django.contrib.auth.hashers.make_password`,
is not in the source tree; the spec states that passwords are to be
hashed "with bcrypt before storing them", so `make_password` is modelled
as bcrypt hashing with a fresh salt. -/
def make_password (password : String) (salt : Nat) : BcryptHash :=
  bcrypt_hashpw password salt

/-- Python falsiness of `request.data.get(...)`: absent or empty. -/
def pyStrFalsy : Option String → Bool
  | none => true
  | some s => s == ""

inductive RegisterResponse where
  | badRequest (detail : String)
  | created (id : Nat) (email : String)
deriving Repr, DecidableEq

/-- `RegisterAPIView.post`: require email and password, reject an existing
email, then `User.objects.create` with `make_password(password)` (username
takes the `CharField` default `""`, `is_active` its default true). -/
def register_api_post (users : List DjangoUser) (email password : Option String)
    (first_name last_name : String) (salt newId : Nat) :
    RegisterResponse × List DjangoUser :=
  if pyStrFalsy email || pyStrFalsy password then
    (.badRequest "Email and password are required", users)
  else
    let e := email.getD ""
    let p := password.getD ""
    if !(users.filter (fun u => u.email == e)).isEmpty then
      (.badRequest "User already exists", users)
    else
      let u : DjangoUser := ⟨newId, "", e, make_password p salt, first_name, last_name, true⟩
      (.created newId e, users ++ [u])

/-- Django `authenticate(username=..., password=...)` (ModelBackend): look
the user up by `username`, check the password, then `user_can_authenticate`
(`is_active`).  `DoesNotExist` is swallowed by the backend (`none`); a
duplicate-username `MultipleObjectsReturned` propagates (`error`). -/
def django_authenticate (users : List DjangoUser) (username password : String) :
    Except String (Option DjangoUser) :=
  match users.filter (fun u => u.username == username) with
  | [] => .ok none
  | [u] => .ok (if bcrypt_checkpw password u.password && u.is_active then some u else none)
  | _ => .error "MultipleObjectsReturned"

/-- `EmailTokenObtainPairSerializer.validate`: the `if email and password`
guard skips authentication entirely for a blank or absent credential (the
serializer's own blank-field validation rejects the same requests, with
the same 401 at the view); otherwise authenticate with the email as
username, else look the user up by email and authenticate with that
user's real username; finally require `user and user.is_active` (raising
`InvalidToken` otherwise, here `ok none`). -/
def email_token_validate (users : List DjangoUser) (email password : String) :
    Except String (Option DjangoUser) :=
  if email == "" || password == "" then Except.ok none
  else
  match django_authenticate users email password with
  | .error e => .error e
  | .ok try1 =>
    match
      ((match try1 with
        | some u => Except.ok (some u)
        | none =>
          match users.filter (fun (u : DjangoUser) => u.email == email) with
          | [] => Except.ok none
          | [uobj] => django_authenticate users uobj.username password
          | _ => Except.error "MultipleObjectsReturned") : Except String (Option DjangoUser)) with
    | .error e => .error e
    | .ok (some u) => Except.ok (if u.is_active then some u else none)
    | .ok none => Except.ok none

/-- `LoginAPIView.post`: run the serializer; any validation failure or
exception becomes the 401 `'Invalid credentials'` response (`none`); on
success the tokens for the user are returned (`some user`). -/
def login_api_post (users : List DjangoUser) (email password : String) :
    Option DjangoUser :=
  match email_token_validate users email password with
  | .error _ => none
  | .ok none => none
  | .ok (some u) => some u

/-! ## Chat / recommendation viewsets and the profile detail view -/

/-- `ConversationViewSet.get_queryset`: `request_user` is the requester
(`none` when anonymous), `url_user_id` the optional URL `user_id`. -/
def conversation_get_queryset (st : DbState) (request_user : Option Nat)
    (url_user_id : Option Nat) : List ConversationRow :=
  match request_user with
  | none => []
  | some uid =>
    match url_user_id with
    | some v =>
      if v != uid then []
      else sortDesc (fun r => r.timestamp) (st.conversations.filter (fun r => r.user_id == uid))
    | none =>
      sortDesc (fun r => r.timestamp) (st.conversations.filter (fun r => r.user_id == uid))

/-- `RecommendationViewSet.get_queryset`. -/
def recommendation_get_queryset (st : DbState) (request_user : Option Nat)
    (url_user_id : Option Nat) : List RecommendationRow :=
  match request_user with
  | none => []
  | some uid =>
    match url_user_id with
    | some v =>
      if v != uid then []
      else sortDesc (fun r => r.timestamp) (st.recommendations.filter (fun r => r.user_id == uid))
    | none =>
      sortDesc (fun r => r.timestamp) (st.recommendations.filter (fun r => r.user_id == uid))

/-- A row of the ORM `UserProfile` table (the fields the detail view and
serializer touch; the survey fields all take blank defaults). -/
structure OrmProfile where
  user_id : Nat
  bio : String
  location : String
deriving Repr, DecidableEq

/-- A profile row created with model defaults, as
`UserProfile.objects.create(user=user)` does. -/
def OrmProfile.fresh (uid : Nat) : OrmProfile := ⟨uid, "", ""⟩

/-- `UserProfileDetailView.get`: fetch the requester's own profile (the
URL `user_id` is not consulted), creating it with defaults if absent;
return the serialized profile and the resulting table. -/
def user_profile_detail_get (profiles : List OrmProfile) (request_user : Nat)
    (url_user_id : Nat) : OrmProfile × List OrmProfile :=
  match profiles.find? (fun p => p.user_id == request_user) with
  | some p => (p, profiles)
  | none =>
    let p := OrmProfile.fresh request_user
    (p, profiles ++ [p])

/-! ## CustomJWTAuthentication (`backend/core/authentication.py`)

Header values are modelled as lists of space-separated words; a word is
the literal `Bearer`, a token blob, or any other string. -/

inductive HWord where
  | bearer : HWord
  | tok : JwtToken → HWord
  | other : String → HWord
deriving Repr, DecidableEq

structure HttpRequest where
  query_token : Option JwtToken
  cookie_auth_token : Option JwtToken
  authorization : Option (List HWord)
  x_auth_token : Option (List HWord)
deriving Repr, DecidableEq

/-- Outcome of DRF authentication: a `(user, token)` pair, `None`
(anonymous), or a raised `AuthenticationFailed` / `InvalidToken`. -/
inductive AuthOutcome where
  | ok : Nat → AuthOutcome
  | anonymous : AuthOutcome
  | reject : String → AuthOutcome
deriving Repr, DecidableEq

/-- simplejwt `JWTAuthentication.get_user`: look the user of the validated
payload up; a missing or inactive user raises `AuthenticationFailed`
(which is not caught by the query/cookie stages). -/
def simplejwt_get_user (users : List DjangoUser) (p : JwtPayload) : AuthOutcome :=
  match users.find? (fun u => u.id == p.userId) with
  | none => .reject "User not found"
  | some u => if u.is_active then .ok u.id else .reject "User is inactive"

/-- `CustomJWTAuthentication.get_header`: the Authorization header, else
the X-Auth-Token header with `Bearer` prepended when missing. -/
def auth_get_header (req : HttpRequest) : Option (List HWord) :=
  match req.authorization with
  | some h => some h
  | none =>
    match req.x_auth_token with
    | some h => some (if h.head? == some HWord.bearer then h else HWord.bearer :: h)
    | none => none

/-- The inherited header-based `JWTAuthentication.authenticate` together
with the overridden `get_raw_token`: an absent header or a non-Bearer
scheme yields `None`; a malformed Bearer header or invalid token raises. -/
def header_authenticate (users : List DjangoUser) (secret : String) (now : Nat)
    (req : HttpRequest) : AuthOutcome :=
  match auth_get_header req with
  | none => .anonymous
  | some [] => .anonymous
  | some (w :: rest) =>
    if w != HWord.bearer then .anonymous
    else
      match rest with
      | [HWord.tok t] =>
        (match jwt_decode t secret now with
         | some p => simplejwt_get_user users p
         | none => .reject "Token is invalid or expired")
      | [_] => .reject "Token is invalid or expired"
      | _ => .reject "Authorization header must contain two space-delimited values"

/-- The cookie stage of `CustomJWTAuthentication.authenticate`: a present
cookie token is validated; `InvalidToken` / `TokenError` fall through to
the header stage. -/
def cookie_authenticate (users : List DjangoUser) (secret : String) (now : Nat)
    (req : HttpRequest) : AuthOutcome :=
  match req.cookie_auth_token with
  | some t =>
    (match jwt_decode t secret now with
     | some p => simplejwt_get_user users p
     | none => header_authenticate users secret now req)
  | none => header_authenticate users secret now req

/-- `CustomJWTAuthentication.authenticate`: the `token` query parameter
first, then the `auth-token` cookie, then the headers. -/
def custom_authenticate (users : List DjangoUser) (secret : String) (now : Nat)
    (req : HttpRequest) : AuthOutcome :=
  match req.query_token with
  | some t =>
    (match jwt_decode t secret now with
     | some p => simplejwt_get_user users p
     | none => cookie_authenticate users secret now req)
  | none => cookie_authenticate users secret now req

/-! ## Shared helper lemmas and concrete states -/

/-- A bcrypt hash string is strictly longer than the hashed password, so
the stored string is never the plaintext password. -/
theorem render_hashpw_ne (p : String) (s : Nat) : (bcrypt_hashpw p s).render ≠ p := by
  intro h
  have hl := congrArg String.length h
  simp only [BcryptHash.render, bcrypt_hashpw, String.length_append] at hl
  have h4 : ("$2b$" : String).length = 4 := by decide
  have h1 : ("$" : String).length = 1 := by decide
  rw [h4, h1] at hl
  omega

/-- The empty database. -/
def emptyDb : DbState := ⟨[], [], [], [], [], []⟩

/-- The head of a list survives a positive-length take. -/
theorem mem_take_cons_self {α : Type} (a : α) (l : List α) (n : Nat) (h : 0 < n) :
    a ∈ List.take n (a :: l) := by
  cases n with
  | zero => cases h
  | succ m => simp [List.take_succ_cons]

/-! ## Claim theorems -/

/-- C1: for every registration request that succeeds, the stored password
is a bcrypt hash of the submitted password produced before the row is
written, and the stored string is never the plaintext — on both the
`PostgreSQLService.register_user` path and the `RegisterAPIView.post`
path. -/
theorem C1_register_stores_bcrypt_hash
    (svc : Service) (st : DbState) (now salt newUserId newSessionId : Nat)
    (email spw : String) (fn ln : Option String)
    (vusers : List DjangoUser) (vemail vpw vfn vln : String) (vsalt vnewId : Nat)
    (hs : (register_user svc st now salt newUserId newSessionId email spw fn ln).1.isOk = true)
    (hv : ∃ i e, (register_api_post vusers (some vemail) (some vpw) vfn vln vsalt vnewId).1
      = RegisterResponse.created i e) :
    (∃ row : UserRow,
      (register_user svc st now salt newUserId newSessionId email spw fn ln).2.users
        = st.users ++ [row] ∧
      row.password_hash = bcrypt_hashpw spw salt ∧
      row.password_hash.render ≠ spw) ∧
    (∃ u : DjangoUser,
      (register_api_post vusers (some vemail) (some vpw) vfn vln vsalt vnewId).2
        = vusers ++ [u] ∧
      u.password = bcrypt_hashpw vpw vsalt ∧
      u.password.render ≠ vpw) := by
  constructor
  · by_cases hc : (st.users.filter (fun u => u.email == email)).isEmpty
    · refine ⟨⟨newUserId, email, bcrypt_hashpw spw salt, fn, ln, false, now, now⟩,
        ?_, rfl, render_hashpw_ne _ _⟩
      simp [register_user, hc, create_session]
    · exfalso
      simp [register_user, hc, Except.isOk, Except.toBool] at hs
  · obtain ⟨i, e, hcr⟩ := hv
    by_cases h1 : (pyStrFalsy (some vemail) || pyStrFalsy (some vpw)) = true
    · exfalso
      simp [register_api_post, h1] at hcr
    · by_cases h2 : (vusers.filter (fun u => u.email == vemail)).isEmpty
      · refine ⟨⟨vnewId, "", vemail, bcrypt_hashpw vpw vsalt, vfn, vln, true⟩,
          ?_, rfl, render_hashpw_ne _ _⟩
        simp [register_api_post, h1, h2, make_password]
      · exfalso
        simp [register_api_post, h1, h2] at hcr

theorem C1_register_stores_bcrypt_hash_witness :
    (∃ row : UserRow,
      (register_user ⟨"sec", 604800⟩ emptyDb 0 5 1 1 "a@b" "pw" none none).2.users
        = emptyDb.users ++ [row] ∧
      row.password_hash = bcrypt_hashpw "pw" 5 ∧
      row.password_hash.render ≠ "pw") ∧
    (∃ u : DjangoUser,
      (register_api_post [] (some "a@b") (some "pw") "" "" 5 1).2 = [] ++ [u] ∧
      u.password = bcrypt_hashpw "pw" 5 ∧
      u.password.render ≠ "pw") :=
  C1_register_stores_bcrypt_hash ⟨"sec", 604800⟩ emptyDb 0 5 1 1 "a@b" "pw" none none
    [] "a@b" "pw" "" "" 5 1 rfl ⟨1, "a@b", rfl⟩

/-- C2: the conversation and recommendation list endpoints depend only on
rows owned by the authenticated user — states agreeing on the user's own
rows give identical responses — and a URL `user_id` differing from the
authenticated user yields the empty list. -/
theorem C2_list_isolation (st1 st2 : DbState) (uid other : Nat)
    (hconv : st1.conversations.filter (fun r => r.user_id == uid)
      = st2.conversations.filter (fun r => r.user_id == uid))
    (hrec : st1.recommendations.filter (fun r => r.user_id == uid)
      = st2.recommendations.filter (fun r => r.user_id == uid))
    (hne : other ≠ uid) :
    (∀ url : Option Nat,
      conversation_get_queryset st1 (some uid) url
        = conversation_get_queryset st2 (some uid) url) ∧
    (∀ url : Option Nat,
      recommendation_get_queryset st1 (some uid) url
        = recommendation_get_queryset st2 (some uid) url) ∧
    conversation_get_queryset st1 (some uid) (some other) = [] ∧
    recommendation_get_queryset st1 (some uid) (some other) = [] := by
  refine ⟨?_, ?_, ?_, ?_⟩
  · intro url
    cases url with
    | none => simp [conversation_get_queryset, hconv]
    | some v =>
      by_cases hv : v = uid
      · simp [conversation_get_queryset, hv, hconv]
      · simp [conversation_get_queryset, bne_iff_ne, hv]
  · intro url
    cases url with
    | none => simp [recommendation_get_queryset, hrec]
    | some v =>
      by_cases hv : v = uid
      · simp [recommendation_get_queryset, hv, hrec]
      · simp [recommendation_get_queryset, bne_iff_ne, hv]
  · simp [conversation_get_queryset, bne_iff_ne, hne]
  · simp [recommendation_get_queryset, bne_iff_ne, hne]

theorem C2_list_isolation_witness :
    (∀ url : Option Nat,
      conversation_get_queryset ⟨[], [], [], [⟨1, 1, "user", "hi", none, 0⟩], [], [⟨1, 1, "t", Json.null, none, none, 0⟩]⟩ (some 1) url
        = conversation_get_queryset ⟨[], [], [], [⟨1, 1, "user", "hi", none, 0⟩, ⟨2, 2, "user", "zz", none, 1⟩], [], [⟨1, 1, "t", Json.null, none, none, 0⟩, ⟨2, 2, "u", Json.null, none, none, 1⟩]⟩ (some 1) url) ∧
    (∀ url : Option Nat,
      recommendation_get_queryset ⟨[], [], [], [⟨1, 1, "user", "hi", none, 0⟩], [], [⟨1, 1, "t", Json.null, none, none, 0⟩]⟩ (some 1) url
        = recommendation_get_queryset ⟨[], [], [], [⟨1, 1, "user", "hi", none, 0⟩, ⟨2, 2, "user", "zz", none, 1⟩], [], [⟨1, 1, "t", Json.null, none, none, 0⟩, ⟨2, 2, "u", Json.null, none, none, 1⟩]⟩ (some 1) url) ∧
    conversation_get_queryset ⟨[], [], [], [⟨1, 1, "user", "hi", none, 0⟩], [], [⟨1, 1, "t", Json.null, none, none, 0⟩]⟩ (some 1) (some 2) = [] ∧
    recommendation_get_queryset ⟨[], [], [], [⟨1, 1, "user", "hi", none, 0⟩], [], [⟨1, 1, "t", Json.null, none, none, 0⟩]⟩ (some 1) (some 2) = [] :=
  C2_list_isolation _ _ 1 2 rfl rfl (by decide)

/-- C10: the profile detail GET always answers with the requester's own
profile whatever user id the URL carries, creating the row with model
defaults when absent, so afterwards the requester's profile row exists. -/
theorem C10_profile_get_own_profile (profiles : List OrmProfile) (requester url1 url2 : Nat) :
    (user_profile_detail_get profiles requester url1).1.user_id = requester ∧
    user_profile_detail_get profiles requester url1
      = user_profile_detail_get profiles requester url2 ∧
    (∃ p ∈ (user_profile_detail_get profiles requester url1).2, p.user_id = requester) ∧
    (profiles.find? (fun p => p.user_id == requester) = none →
      (user_profile_detail_get profiles requester url1).2
        = profiles ++ [OrmProfile.fresh requester]) := by
  refine ⟨?_, rfl, ?_, ?_⟩
  · cases hf : profiles.find? (fun p => p.user_id == requester) with
    | none => simp [user_profile_detail_get, hf, OrmProfile.fresh]
    | some p =>
      have hp := List.find?_some hf
      simp only [beq_iff_eq] at hp
      simp [user_profile_detail_get, hf, hp]
  · cases hf : profiles.find? (fun p => p.user_id == requester) with
    | none =>
      refine ⟨OrmProfile.fresh requester, ?_, rfl⟩
      simp [user_profile_detail_get, hf]
    | some p =>
      have hp := List.find?_some hf
      simp only [beq_iff_eq] at hp
      exact ⟨p, by simp [user_profile_detail_get, hf, List.mem_of_find?_eq_some hf], hp⟩
  · intro hf
    simp [user_profile_detail_get, hf]

theorem C10_profile_get_own_profile_witness :
    (user_profile_detail_get [] 1 2).1.user_id = 1 ∧
    user_profile_detail_get [] 1 2 = user_profile_detail_get [] 1 3 ∧
    (∃ p ∈ (user_profile_detail_get [] 1 2).2, p.user_id = 1) ∧
    (([] : List OrmProfile).find? (fun p => p.user_id == 1) = none →
      (user_profile_detail_get [] 1 2).2 = [] ++ [OrmProfile.fresh 1]) :=
  C10_profile_get_own_profile [] 1 2 3

/-- C3: verify_token returns a user record exactly when the JWT decodes
under the configured secret and an unexpired user_sessions row with that
exact token exists (given referential integrity of session rows); in
every other case it returns None, and after a failed decode the database
state is untouched. -/
theorem C3_verify_token_iff (svc : Service) (st : DbState) (now : Nat) (token : JwtToken)
    (hRI : ∀ s ∈ st.sessions, ∃ u ∈ st.users, u.id = s.user_id) :
    ((verify_token svc st now token).1.isSome ↔
      (jwt_decode token svc.jwt_secret now).isSome ∧
      ∃ s ∈ st.sessions, s.token = token ∧ now < s.expires_at) ∧
    (jwt_decode token svc.jwt_secret now = none →
      (verify_token svc st now token).2 = st) := by
  cases hdec : jwt_decode token svc.jwt_secret now with
  | none =>
    constructor
    · simp [verify_token, hdec]
    · intro _
      simp [verify_token, hdec]
  | some p =>
    refine ⟨?_, fun h => absurd h (Option.some_ne_none p)⟩
    simp only [verify_token, hdec]
    cases hj : ((st.sessions.filter
        (fun s => s.token == token && now < s.expires_at)).filterMap
      (fun s => (st.users.find? (fun u => u.id == s.user_id)).map (fun u => (s, u)))) with
    | nil =>
      simp only [List.head?_nil, Option.isSome_none, Bool.false_eq_true, false_iff, not_and]
      intro _ hcon
      obtain ⟨s, hsmem, hstok, hsexp⟩ := hcon
      have hsf : s ∈ st.sessions.filter (fun s => s.token == token && now < s.expires_at) := by
        rw [List.mem_filter]
        refine ⟨hsmem, ?_⟩
        simp [hstok, hsexp]
      have hnone := List.filterMap_eq_nil_iff.mp hj s hsf
      rw [Option.map_eq_none'] at hnone
      obtain ⟨u, humem, huid⟩ := hRI s hsmem
      have hsome : (st.users.find? (fun u => u.id == s.user_id)).isSome = true := by
        rw [List.find?_isSome]
        exact ⟨u, humem, by simp [huid]⟩
      rw [hnone] at hsome
      cases hsome
    | cons x xs =>
      obtain ⟨s, u⟩ := x
      simp only [List.head?_cons, Option.isSome_some, true_iff]
      refine ⟨trivial, ?_⟩
      have hxmem : (s, u) ∈ (st.sessions.filter
          (fun s => s.token == token && now < s.expires_at)).filterMap
        (fun s => (st.users.find? (fun u => u.id == s.user_id)).map (fun u => (s, u))) := by
        rw [hj]
        exact List.mem_cons_self _ _
      obtain ⟨a, hamem, hfa⟩ := List.mem_filterMap.mp hxmem
      have has : a = s := by
        cases hfind : st.users.find? (fun u => u.id == a.user_id) with
        | none => rw [hfind] at hfa; cases hfa
        | some u0 =>
          rw [hfind] at hfa
          simp only [Option.map_some', Option.some.injEq, Prod.mk.injEq] at hfa
          exact hfa.1
      subst has
      rcases List.mem_filter.mp hamem with ⟨hmem, hcond⟩
      simp only [Bool.and_eq_true, beq_iff_eq, decide_eq_true_eq] at hcond
      exact ⟨a, hmem, hcond.1, hcond.2⟩

theorem C3_verify_token_iff_witness :
    ((verify_token ⟨"sec", 604800⟩
        ⟨[⟨7, "a@b", bcrypt_hashpw "pw" 1, none, none, false, 0, 0⟩],
          [⟨3, 7, ⟨⟨7, 50⟩, "sec"⟩, 50, 0, 0⟩], [], [], [], []⟩
        10 ⟨⟨7, 50⟩, "sec"⟩).1.isSome ↔
      (jwt_decode ⟨⟨7, 50⟩, "sec"⟩ "sec" 10).isSome ∧
      ∃ s ∈ [(⟨3, 7, ⟨⟨7, 50⟩, "sec"⟩, 50, 0, 0⟩ : SessionRow)],
        s.token = ⟨⟨7, 50⟩, "sec"⟩ ∧ 10 < s.expires_at) ∧
    (jwt_decode ⟨⟨7, 50⟩, "sec"⟩ "sec" 10 = none →
      (verify_token ⟨"sec", 604800⟩
        ⟨[⟨7, "a@b", bcrypt_hashpw "pw" 1, none, none, false, 0, 0⟩],
          [⟨3, 7, ⟨⟨7, 50⟩, "sec"⟩, 50, 0, 0⟩], [], [], [], []⟩
        10 ⟨⟨7, 50⟩, "sec"⟩).2
        = ⟨[⟨7, "a@b", bcrypt_hashpw "pw" 1, none, none, false, 0, 0⟩],
          [⟨3, 7, ⟨⟨7, 50⟩, "sec"⟩, 50, 0, 0⟩], [], [], [], []⟩) :=
  C3_verify_token_iff ⟨"sec", 604800⟩
    ⟨[⟨7, "a@b", bcrypt_hashpw "pw" 1, none, none, false, 0, 0⟩],
      [⟨3, 7, ⟨⟨7, 50⟩, "sec"⟩, 50, 0, 0⟩], [], [], [], []⟩
    10 ⟨⟨7, 50⟩, "sec"⟩
    (by intro s hs
        simp only [List.mem_singleton] at hs
        exact ⟨⟨7, "a@b", bcrypt_hashpw "pw" 1, none, none, false, 0, 0⟩, by simp, by rw [hs]⟩)

/-- C5: recommendation data round-trips opaquely: after
save_recommendation, get_recommendation_history at the default limit 20
contains an entry whose data and type equal the stored values. -/
theorem C5_recommendation_roundtrip (st : DbState) (newId uid : Nat) (rtype : String)
    (data : Json) (now : Nat)
    (hfresh : ∀ r ∈ st.recommendations, r.timestamp < now) :
    ∃ e ∈ get_recommendation_history (save_recommendation st newId uid rtype data now) uid 20,
      e.data = data ∧ e.type = rtype := by
  unfold get_recommendation_history
  have hfilter : (save_recommendation st newId uid rtype data now).recommendations.filter
      (fun r => r.user_id == uid)
      = st.recommendations.filter (fun r => r.user_id == uid)
        ++ [⟨newId, uid, rtype, data, none, none, now⟩] := by
    simp [save_recommendation, List.filter_append]
  have hsortmem : (⟨newId, uid, rtype, data, none, none, now⟩ : RecommendationRow)
      ∈ sortDesc (fun r => r.timestamp)
        ((save_recommendation st newId uid rtype data now).recommendations.filter
          (fun r => r.user_id == uid)) := by
    rw [mem_sortDesc, hfilter]
    simp
  have hdom : ∀ y ∈ sortDesc (fun r => r.timestamp)
      ((save_recommendation st newId uid rtype data now).recommendations.filter
        (fun r => r.user_id == uid)),
      y = (⟨newId, uid, rtype, data, none, none, now⟩ : RecommendationRow)
        ∨ y.timestamp < (⟨newId, uid, rtype, data, none, none, now⟩ : RecommendationRow).timestamp := by
    intro y hy
    rw [mem_sortDesc, hfilter] at hy
    rcases List.mem_append.mp hy with hins | hnew2
    · right
      exact hfresh y (List.mem_filter.mp hins).1
    · left
      simpa using hnew2
  have hhead := head_of_strict_max (pairwise_sortDesc _ _) hsortmem hdom
  cases hs : sortDesc (fun r => r.timestamp)
      ((save_recommendation st newId uid rtype data now).recommendations.filter
        (fun r => r.user_id == uid)) with
  | nil =>
    rw [hs] at hhead
    cases hhead
  | cons x xs =>
    rw [hs] at hhead
    simp only [List.head?_cons, Option.some.injEq] at hhead
    subst hhead
    exact ⟨recommendationEntry ⟨newId, uid, rtype, data, none, none, now⟩,
      List.mem_map_of_mem _ (mem_take_cons_self _ _ 20 (by norm_num)), rfl, rfl⟩

theorem C5_recommendation_roundtrip_witness :
    ∃ e ∈ get_recommendation_history
        (save_recommendation emptyDb 1 2 "housing" (Json.str "opaque") 3) 2 20,
      e.data = Json.str "opaque" ∧ e.type = "housing" :=
  C5_recommendation_roundtrip emptyDb 1 2 "housing" (Json.str "opaque") 3
    (by intro r hr; simp [emptyDb] at hr)

/-- C6: update_recommendation_feedback changes only the was_helpful and
feedback fields of the row matching both the recommendation id and the
user id; every other table, every other row, and every other field is
unchanged, and an id owned by a different user modifies nothing. -/
theorem C6_feedback_frame (st : DbState) (uid rid : Nat) (wh : Bool) (fb : Option String) :
    (update_recommendation_feedback st uid rid wh fb).users = st.users ∧
    (update_recommendation_feedback st uid rid wh fb).sessions = st.sessions ∧
    (update_recommendation_feedback st uid rid wh fb).profiles = st.profiles ∧
    (update_recommendation_feedback st uid rid wh fb).conversations = st.conversations ∧
    (update_recommendation_feedback st uid rid wh fb).interactions = st.interactions ∧
    (update_recommendation_feedback st uid rid wh fb).recommendations.length
      = st.recommendations.length ∧
    (∀ i (h : i < st.recommendations.length)
        (h' : i < (update_recommendation_feedback st uid rid wh fb).recommendations.length),
      ((st.recommendations.get ⟨i, h⟩).id = rid ∧ (st.recommendations.get ⟨i, h⟩).user_id = uid →
        (update_recommendation_feedback st uid rid wh fb).recommendations.get ⟨i, h'⟩
          = {st.recommendations.get ⟨i, h⟩ with was_helpful := some wh, feedback := fb}) ∧
      (¬((st.recommendations.get ⟨i, h⟩).id = rid ∧ (st.recommendations.get ⟨i, h⟩).user_id = uid) →
        (update_recommendation_feedback st uid rid wh fb).recommendations.get ⟨i, h'⟩
          = st.recommendations.get ⟨i, h⟩)) ∧
    ((∀ r ∈ st.recommendations, r.id = rid → r.user_id ≠ uid) →
      update_recommendation_feedback st uid rid wh fb = st) := by
  refine ⟨rfl, rfl, rfl, rfl, rfl, by simp [update_recommendation_feedback], ?_, ?_⟩
  · intro i h h'
    have hm : (update_recommendation_feedback st uid rid wh fb).recommendations.get ⟨i, h'⟩
        = (fun r => if r.id == rid && r.user_id == uid then
            {r with was_helpful := some wh, feedback := fb} else r)
          (st.recommendations.get ⟨i, h⟩) := by
      simp [update_recommendation_feedback, List.get_eq_getElem, List.getElem_map]
    simp only [List.get_eq_getElem] at hm ⊢
    constructor
    · rintro ⟨hid, huid⟩
      rw [hm]
      simp [hid, huid]
    · intro hno
      rw [hm]
      by_cases h1 : st.recommendations[i].id = rid
      · have h2 : ¬st.recommendations[i].user_id = uid := fun hc => hno ⟨h1, hc⟩
        simp [h1, h2]
      · simp [h1]
  · intro hno
    have hmap : st.recommendations.map (fun r => if r.id == rid && r.user_id == uid then
        {r with was_helpful := some wh, feedback := fb} else r) = st.recommendations := by
      have h1 : ∀ r ∈ st.recommendations,
          (if r.id == rid && r.user_id == uid then
            ({r with was_helpful := some wh, feedback := fb} : RecommendationRow) else r)
            = id r := by
        intro r hr
        by_cases hid : r.id = rid
        · have h2 : r.user_id ≠ uid := hno r hr hid
          simp [hid, h2]
        · simp [hid]
      rw [List.map_congr_left h1, List.map_id]
    show ({st with recommendations := _} : DbState) = st
    rw [hmap]

theorem C6_feedback_frame_witness :
    (update_recommendation_feedback
        ⟨[], [], [], [], [], [⟨4, 9, "t", Json.null, none, none, 0⟩]⟩ 9 4 true (some "ok")).users
      = DbState.users ⟨[], [], [], [], [], [⟨4, 9, "t", Json.null, none, none, 0⟩]⟩ ∧
    (update_recommendation_feedback
        ⟨[], [], [], [], [], [⟨4, 9, "t", Json.null, none, none, 0⟩]⟩ 9 4 true (some "ok")).sessions
      = DbState.sessions ⟨[], [], [], [], [], [⟨4, 9, "t", Json.null, none, none, 0⟩]⟩ ∧
    (update_recommendation_feedback
        ⟨[], [], [], [], [], [⟨4, 9, "t", Json.null, none, none, 0⟩]⟩ 9 4 true (some "ok")).profiles
      = DbState.profiles ⟨[], [], [], [], [], [⟨4, 9, "t", Json.null, none, none, 0⟩]⟩ ∧
    (update_recommendation_feedback
        ⟨[], [], [], [], [], [⟨4, 9, "t", Json.null, none, none, 0⟩]⟩ 9 4 true (some "ok")).conversations
      = DbState.conversations ⟨[], [], [], [], [], [⟨4, 9, "t", Json.null, none, none, 0⟩]⟩ ∧
    (update_recommendation_feedback
        ⟨[], [], [], [], [], [⟨4, 9, "t", Json.null, none, none, 0⟩]⟩ 9 4 true (some "ok")).interactions
      = DbState.interactions ⟨[], [], [], [], [], [⟨4, 9, "t", Json.null, none, none, 0⟩]⟩ ∧
    (update_recommendation_feedback
        ⟨[], [], [], [], [], [⟨4, 9, "t", Json.null, none, none, 0⟩]⟩ 9 4 true (some "ok")).recommendations.length
      = (DbState.recommendations ⟨[], [], [], [], [], [⟨4, 9, "t", Json.null, none, none, 0⟩]⟩).length ∧
    (∀ i (h : i < (DbState.recommendations ⟨[], [], [], [], [], [⟨4, 9, "t", Json.null, none, none, 0⟩]⟩).length)
        (h' : i < (update_recommendation_feedback
          ⟨[], [], [], [], [], [⟨4, 9, "t", Json.null, none, none, 0⟩]⟩ 9 4 true (some "ok")).recommendations.length),
      (((DbState.recommendations ⟨[], [], [], [], [], [⟨4, 9, "t", Json.null, none, none, 0⟩]⟩).get ⟨i, h⟩).id = 4 ∧
          ((DbState.recommendations ⟨[], [], [], [], [], [⟨4, 9, "t", Json.null, none, none, 0⟩]⟩).get ⟨i, h⟩).user_id = 9 →
        (update_recommendation_feedback
            ⟨[], [], [], [], [], [⟨4, 9, "t", Json.null, none, none, 0⟩]⟩ 9 4 true (some "ok")).recommendations.get ⟨i, h'⟩
          = {(DbState.recommendations ⟨[], [], [], [], [], [⟨4, 9, "t", Json.null, none, none, 0⟩]⟩).get ⟨i, h⟩ with
              was_helpful := some true, feedback := some "ok"}) ∧
      (¬(((DbState.recommendations ⟨[], [], [], [], [], [⟨4, 9, "t", Json.null, none, none, 0⟩]⟩).get ⟨i, h⟩).id = 4 ∧
          ((DbState.recommendations ⟨[], [], [], [], [], [⟨4, 9, "t", Json.null, none, none, 0⟩]⟩).get ⟨i, h⟩).user_id = 9) →
        (update_recommendation_feedback
            ⟨[], [], [], [], [], [⟨4, 9, "t", Json.null, none, none, 0⟩]⟩ 9 4 true (some "ok")).recommendations.get ⟨i, h'⟩
          = (DbState.recommendations ⟨[], [], [], [], [], [⟨4, 9, "t", Json.null, none, none, 0⟩]⟩).get ⟨i, h⟩)) ∧
    ((∀ r ∈ DbState.recommendations ⟨[], [], [], [], [], [⟨4, 9, "t", Json.null, none, none, 0⟩]⟩,
        r.id = 4 → r.user_id ≠ 9) →
      update_recommendation_feedback
          ⟨[], [], [], [], [], [⟨4, 9, "t", Json.null, none, none, 0⟩]⟩ 9 4 true (some "ok")
        = ⟨[], [], [], [], [], [⟨4, 9, "t", Json.null, none, none, 0⟩]⟩) :=
  C6_feedback_frame ⟨[], [], [], [], [], [⟨4, 9, "t", Json.null, none, none, 0⟩]⟩ 9 4 true (some "ok")

/-- C7: cleanup_old_data deletes exactly the conversations older than the
conversation retention cutoff, the user_interactions older than the
analytics retention cutoff, and the expired user_sessions; every newer
row and every other table is retained. -/
theorem C7_cleanup_exact (st : DbState) (now rdays adays : Nat) :
    (∀ r : ConversationRow, r ∈ (cleanup_old_data st now rdays adays).conversations ↔
      r ∈ st.conversations ∧ ¬(r.timestamp < now - rdays * secondsPerDay)) ∧
    (∀ r : InteractionRow, r ∈ (cleanup_old_data st now rdays adays).interactions ↔
      r ∈ st.interactions ∧ ¬(r.timestamp < now - adays * secondsPerDay)) ∧
    (∀ s : SessionRow, s ∈ (cleanup_old_data st now rdays adays).sessions ↔
      s ∈ st.sessions ∧ ¬(s.expires_at < now)) ∧
    (cleanup_old_data st now rdays adays).users = st.users ∧
    (cleanup_old_data st now rdays adays).profiles = st.profiles ∧
    (cleanup_old_data st now rdays adays).recommendations = st.recommendations := by
  refine ⟨?_, ?_, ?_, rfl, rfl, rfl⟩ <;>
    intro r <;>
    simp [cleanup_old_data, List.mem_filter]

/-- On dict-or-NULL column values, the Python `or {}` fallback is exactly
the NULL-default. -/
theorem pyJsonOr_dict (x : Option Json) (hx : ctxIsDictOrNull x) :
    pyJsonOr x (Json.obj []) = x.getD (Json.obj []) := by
  match x with
  | none => rfl
  | some (Json.obj []) => rfl
  | some (Json.obj (a :: l)) => rfl
  | some Json.null | some (Json.bool _) | some (Json.num _)
  | some (Json.str _) | some (Json.arr _) =>
      exact absurd hx (by simp [ctxIsDictOrNull])

/-- C9: get_conversation_history returns at most `limit` entries — the
user's most recent messages, ascending by timestamp (the reversal of the
descending LIMIT query) — and each entry's context is the stored
context_data, or the empty dict when it was NULL. -/
theorem C9_history_shape (st : DbState) (uid n : Nat)
    (hctx : ∀ r ∈ st.conversations, ctxIsDictOrNull r.context_data) :
    (get_conversation_history st uid n).length ≤ n ∧
    (get_conversation_history st uid n).Pairwise (fun a b => a.timestamp ≤ b.timestamp) ∧
    (∀ e ∈ get_conversation_history st uid n, ∃ r ∈ st.conversations,
      r.user_id = uid ∧ e.role = r.message_type ∧ e.content = r.message_text ∧
      e.timestamp = r.timestamp ∧ e.context = r.context_data.getD (Json.obj [])) ∧
    (∀ r ∈ st.conversations, r.user_id = uid →
      conversationEntry uid r ∈ get_conversation_history st uid n ∨
      ∀ e ∈ get_conversation_history st uid n, r.timestamp ≤ e.timestamp) := by
  refine ⟨?_, ?_, ?_, ?_⟩
  · simp only [get_conversation_history, List.length_map, List.length_reverse,
      List.length_take]
    exact min_le_left _ _
  · have hsorted := pairwise_sortDesc (fun r : ConversationRow => r.timestamp)
      (st.conversations.filter (fun r => r.user_id == uid))
    have htake := List.Pairwise.sublist (List.take_sublist n _) hsorted
    have hrev := List.pairwise_reverse.mpr htake
    exact List.pairwise_map.mpr hrev
  · intro e he
    simp only [get_conversation_history, List.mem_map] at he
    obtain ⟨a, ha, hae⟩ := he
    have haS : a ∈ sortDesc (fun r : ConversationRow => r.timestamp)
        (st.conversations.filter (fun r => r.user_id == uid)) :=
      List.Sublist.mem (List.mem_reverse.mp ha) (List.take_sublist n _)
    have haF := mem_sortDesc.mp haS
    rcases List.mem_filter.mp haF with ⟨hamem, hauid⟩
    simp only [beq_iff_eq] at hauid
    refine ⟨a, hamem, hauid, ?_, ?_, ?_, ?_⟩ <;> rw [← hae]
    · rfl
    · rfl
    · rfl
    · exact pyJsonOr_dict a.context_data (hctx a hamem)
  · intro r hr hruid
    have hrF : r ∈ st.conversations.filter (fun c => c.user_id == uid) :=
      List.mem_filter.mpr ⟨hr, by simp [hruid]⟩
    have hrS : r ∈ sortDesc (fun c : ConversationRow => c.timestamp)
        (st.conversations.filter (fun c => c.user_id == uid)) := mem_sortDesc.mpr hrF
    rw [← List.take_append_drop n (sortDesc (fun c : ConversationRow => c.timestamp)
        (st.conversations.filter (fun c => c.user_id == uid)))] at hrS
    rcases List.mem_append.mp hrS with htk | hdp
    · left
      exact List.mem_map_of_mem _ (List.mem_reverse.mpr htk)
    · right
      intro e he
      simp only [get_conversation_history, List.mem_map] at he
      obtain ⟨b, hb, hbe⟩ := he
      have hbtake := List.mem_reverse.mp hb
      have hpair := pairwise_sortDesc (fun c : ConversationRow => c.timestamp)
        (st.conversations.filter (fun c => c.user_id == uid))
      rw [← List.take_append_drop n (sortDesc (fun c : ConversationRow => c.timestamp)
          (st.conversations.filter (fun c => c.user_id == uid)))] at hpair
      have hle := (List.pairwise_append.mp hpair).2.2 b hbtake r hdp
      rw [← hbe]
      exact hle

theorem C9_history_shape_witness :
    (get_conversation_history
        ⟨[], [], [], [⟨1, 1, "user", "a", none, 0⟩,
          ⟨2, 1, "assistant", "b", some (Json.obj [("k", Json.num 1)]), 1⟩,
          ⟨3, 2, "user", "c", none, 2⟩], [], []⟩ 1 1).length ≤ 1 ∧
    (get_conversation_history
        ⟨[], [], [], [⟨1, 1, "user", "a", none, 0⟩,
          ⟨2, 1, "assistant", "b", some (Json.obj [("k", Json.num 1)]), 1⟩,
          ⟨3, 2, "user", "c", none, 2⟩], [], []⟩ 1 1).Pairwise
      (fun a b => a.timestamp ≤ b.timestamp) ∧
    (∀ e ∈ get_conversation_history
        ⟨[], [], [], [⟨1, 1, "user", "a", none, 0⟩,
          ⟨2, 1, "assistant", "b", some (Json.obj [("k", Json.num 1)]), 1⟩,
          ⟨3, 2, "user", "c", none, 2⟩], [], []⟩ 1 1,
      ∃ r ∈ [(⟨1, 1, "user", "a", none, 0⟩ : ConversationRow),
          ⟨2, 1, "assistant", "b", some (Json.obj [("k", Json.num 1)]), 1⟩,
          ⟨3, 2, "user", "c", none, 2⟩],
        r.user_id = 1 ∧ e.role = r.message_type ∧ e.content = r.message_text ∧
        e.timestamp = r.timestamp ∧ e.context = r.context_data.getD (Json.obj [])) ∧
    (∀ r ∈ [(⟨1, 1, "user", "a", none, 0⟩ : ConversationRow),
        ⟨2, 1, "assistant", "b", some (Json.obj [("k", Json.num 1)]), 1⟩,
        ⟨3, 2, "user", "c", none, 2⟩], r.user_id = 1 →
      conversationEntry 1 r ∈ get_conversation_history
        ⟨[], [], [], [⟨1, 1, "user", "a", none, 0⟩,
          ⟨2, 1, "assistant", "b", some (Json.obj [("k", Json.num 1)]), 1⟩,
          ⟨3, 2, "user", "c", none, 2⟩], [], []⟩ 1 1 ∨
      ∀ e ∈ get_conversation_history
        ⟨[], [], [], [⟨1, 1, "user", "a", none, 0⟩,
          ⟨2, 1, "assistant", "b", some (Json.obj [("k", Json.num 1)]), 1⟩,
          ⟨3, 2, "user", "c", none, 2⟩], [], []⟩ 1 1, r.timestamp ≤ e.timestamp) :=
  C9_history_shape
    ⟨[], [], [], [⟨1, 1, "user", "a", none, 0⟩,
      ⟨2, 1, "assistant", "b", some (Json.obj [("k", Json.num 1)]), 1⟩,
      ⟨3, 2, "user", "c", none, 2⟩], [], []⟩ 1 1
    (by decide)

/-- Both header-reading stages ignore the query and cookie fields of the
request. -/
theorem header_authenticate_ignores_creds (users : List DjangoUser) (secret : String)
    (now : Nat) (q1 q2 c1 c2 : Option JwtToken) (a x : Option (List HWord)) :
    header_authenticate users secret now ⟨q1, c1, a, x⟩
      = header_authenticate users secret now ⟨q2, c2, a, x⟩ := rfl

/-- C8: CustomJWTAuthentication consults the token query parameter, then
the auth-token cookie, then the headers, in that fixed order — a valid
query token authenticates its user whatever the other sources hold, and
an invalid query or cookie token falls through to the next source rather
than rejecting the request. -/
theorem C8_auth_source_order (users : List DjangoUser) (secret : String) (now : Nat)
    (req : HttpRequest) :
    (∀ t p u, req.query_token = some t → jwt_decode t secret now = some p →
      users.find? (fun w => w.id == p.userId) = some u → u.is_active = true →
      custom_authenticate users secret now req = AuthOutcome.ok p.userId) ∧
    (∀ t, req.query_token = some t → jwt_decode t secret now = none →
      custom_authenticate users secret now req
        = custom_authenticate users secret now {req with query_token := none}) ∧
    (∀ t, req.cookie_auth_token = some t → jwt_decode t secret now = none →
      custom_authenticate users secret now req
        = custom_authenticate users secret now {req with cookie_auth_token := none}) ∧
    (req.query_token = none → req.cookie_auth_token = none →
      custom_authenticate users secret now req = header_authenticate users secret now req) := by
  obtain ⟨q, c, a, x⟩ := req
  refine ⟨?_, ?_, ?_, ?_⟩
  · intro t p u ht hdec hfind hact
    simp only at ht
    subst ht
    have hu : u.id = p.userId := by
      have := List.find?_some hfind
      simpa using this
    simp [custom_authenticate, hdec, simplejwt_get_user, hfind, hact, hu]
  · intro t ht hdec
    simp only at ht
    subst ht
    simp only [custom_authenticate, hdec]
    cases c with
    | none => exact header_authenticate_ignores_creds users secret now _ _ _ _ a x
    | some tc =>
      simp only [cookie_authenticate]
      cases jwt_decode tc secret now with
      | some p => rfl
      | none => exact header_authenticate_ignores_creds users secret now _ _ _ _ a x
  · intro t hc hdec
    simp only at hc
    subst hc
    cases q with
    | none =>
      simp only [custom_authenticate, cookie_authenticate, hdec]
      exact header_authenticate_ignores_creds users secret now _ _ _ _ a x
    | some tq =>
      simp only [custom_authenticate]
      cases jwt_decode tq secret now with
      | some p => rfl
      | none =>
        simp only [cookie_authenticate, hdec]
        exact header_authenticate_ignores_creds users secret now _ _ _ _ a x
  · intro hq hc
    simp only at hq hc
    subst hq
    subst hc
    simp [custom_authenticate, cookie_authenticate]

theorem C8_auth_source_order_witness :
    custom_authenticate [⟨1, "", "e", bcrypt_hashpw "p" 0, "", "", true⟩] "s" 0
        ⟨some ⟨⟨1, 10⟩, "s"⟩, some ⟨⟨2, 10⟩, "w"⟩,
          some [HWord.bearer, HWord.tok ⟨⟨3, 10⟩, "s"⟩], none⟩
      = AuthOutcome.ok 1 ∧
    custom_authenticate [⟨1, "", "e", bcrypt_hashpw "p" 0, "", "", true⟩] "s" 0
        ⟨some ⟨⟨1, 10⟩, "w"⟩, none, none, none⟩
      = custom_authenticate [⟨1, "", "e", bcrypt_hashpw "p" 0, "", "", true⟩] "s" 0
        ⟨none, none, none, none⟩ ∧
    custom_authenticate [⟨1, "", "e", bcrypt_hashpw "p" 0, "", "", true⟩] "s" 0
        ⟨none, some ⟨⟨1, 10⟩, "w"⟩, none, none⟩
      = custom_authenticate [⟨1, "", "e", bcrypt_hashpw "p" 0, "", "", true⟩] "s" 0
        ⟨none, none, none, none⟩ ∧
    custom_authenticate [⟨1, "", "e", bcrypt_hashpw "p" 0, "", "", true⟩] "s" 0
        ⟨none, none, some [HWord.bearer, HWord.tok ⟨⟨1, 10⟩, "s"⟩], none⟩
      = header_authenticate [⟨1, "", "e", bcrypt_hashpw "p" 0, "", "", true⟩] "s" 0
        ⟨none, none, some [HWord.bearer, HWord.tok ⟨⟨1, 10⟩, "s"⟩], none⟩ :=
  ⟨(C8_auth_source_order [⟨1, "", "e", bcrypt_hashpw "p" 0, "", "", true⟩] "s" 0
      ⟨some ⟨⟨1, 10⟩, "s"⟩, some ⟨⟨2, 10⟩, "w"⟩,
        some [HWord.bearer, HWord.tok ⟨⟨3, 10⟩, "s"⟩], none⟩).1
      ⟨⟨1, 10⟩, "s"⟩ ⟨1, 10⟩ ⟨1, "", "e", bcrypt_hashpw "p" 0, "", "", true⟩ rfl rfl rfl rfl,
    (C8_auth_source_order [⟨1, "", "e", bcrypt_hashpw "p" 0, "", "", true⟩] "s" 0
      ⟨some ⟨⟨1, 10⟩, "w"⟩, none, none, none⟩).2.1 ⟨⟨1, 10⟩, "w"⟩ rfl rfl,
    (C8_auth_source_order [⟨1, "", "e", bcrypt_hashpw "p" 0, "", "", true⟩] "s" 0
      ⟨none, some ⟨⟨1, 10⟩, "w"⟩, none, none⟩).2.2.1 ⟨⟨1, 10⟩, "w"⟩ rfl rfl,
    (C8_auth_source_order [⟨1, "", "e", bcrypt_hashpw "p" 0, "", "", true⟩] "s" 0
      ⟨none, none, some [HWord.bearer, HWord.tok ⟨⟨1, 10⟩, "s"⟩], none⟩).2.2.2 rfl rfl⟩


/-- A successful ModelBackend authentication means the username lookup hit
exactly one row, whose password matched and which was active. -/
theorem django_auth_ok_some (users : List DjangoUser) (username password : String)
    (u : DjangoUser)
    (h : django_authenticate users username password = Except.ok (some u)) :
    users.filter (fun w => w.username == username) = [u]
      ∧ bcrypt_checkpw password u.password = true ∧ u.is_active = true := by
  unfold django_authenticate at h
  cases hf : users.filter (fun w => w.username == username) with
  | nil =>
    rw [hf] at h
    simp at h
  | cons a t =>
    cases t with
    | nil =>
      rw [hf] at h
      simp at h
      obtain ⟨⟨hcp, hact⟩, rfl⟩ := h
      exact ⟨rfl, hcp, hact⟩
    | cons b t2 =>
      rw [hf] at h
      simp at h

/-- Soundness of the REST login: a returned account is a member of the
user table with a matching password, is active, and its username or
email equals the submitted email. -/
theorem login_api_post_sound (vusers : List DjangoUser) (vemail vpw : String)
    (u : DjangoUser) (h : login_api_post vusers vemail vpw = some u) :
    u ∈ vusers ∧ (u.username = vemail ∨ u.email = vemail) ∧
      bcrypt_checkpw vpw u.password = true ∧ u.is_active = true := by
  unfold login_api_post at h
  cases hv : email_token_validate vusers vemail vpw with
  | error e =>
    rw [hv] at h
    simp at h
  | ok o =>
    rw [hv] at h
    cases o with
    | none => simp at h
    | some w =>
      simp at h
      subst h
      unfold email_token_validate at hv
      cases hg : (vemail == "" || vpw == "") with
      | true =>
        rw [hg] at hv
        simp at hv
      | false =>
        rw [hg] at hv
        simp only [Bool.false_eq_true, if_false] at hv
        cases hd1 : django_authenticate vusers vemail vpw with
        | error e =>
          rw [hd1] at hv
          simp at hv
        | ok try1 =>
          rw [hd1] at hv
          cases try1 with
          | some w1 =>
            obtain ⟨hfil, hcp, hact⟩ := django_auth_ok_some _ _ _ _ hd1
            simp [hact] at hv
            subst hv
            have hw1f : w1 ∈ vusers.filter (fun v => v.username == vemail) := by
              rw [hfil]
              exact List.mem_singleton_self _
            rcases List.mem_filter.mp hw1f with ⟨hmem, hname⟩
            simp only [beq_iff_eq] at hname
            exact ⟨hmem, Or.inl hname, hcp, hact⟩
          | none =>
            cases hfe : vusers.filter (fun v => v.email == vemail) with
            | nil =>
              rw [hfe] at hv
              simp at hv
            | cons uobj t =>
              cases t with
              | cons b t2 =>
                rw [hfe] at hv
                simp at hv
              | nil =>
                rw [hfe] at hv
                simp at hv
                cases hd2 : django_authenticate vusers uobj.username vpw with
                | error e =>
                  rw [hd2] at hv
                  simp at hv
                | ok o2 =>
                  rw [hd2] at hv
                  cases o2 with
                  | none => simp at hv
                  | some w2 =>
                    obtain ⟨hfil2, hcp2, hact2⟩ := django_auth_ok_some _ _ _ _ hd2
                    simp [hact2] at hv
                    subst hv
                    have huobjf : uobj ∈ vusers.filter (fun v => v.email == vemail) := by
                      rw [hfe]
                      exact List.mem_singleton_self _
                    rcases List.mem_filter.mp huobjf with ⟨huobjmem, huobjem⟩
                    simp only [beq_iff_eq] at huobjem
                    have huobju : uobj ∈ vusers.filter (fun v => v.username == uobj.username) :=
                      List.mem_filter.mpr ⟨huobjmem, by simp⟩
                    rw [hfil2] at huobju
                    have huw : uobj = w2 := List.mem_singleton.mp huobju
                    rw [← huw]
                    rw [← huw] at hcp2 hact2
                    exact ⟨huobjmem, Or.inr huobjem, hcp2, hact2⟩

/-- The REST login rejects a blank email or password before any lookup. -/
theorem login_api_post_blank (vusers : List DjangoUser) (vemail vpw : String)
    (h : vemail = "" ∨ vpw = "") :
    login_api_post vusers vemail vpw = none := by
  have hg : (vemail == "" || vpw == "") = true := by
    rcases h with h | h <;> simp [h]
  unfold login_api_post email_token_validate
  rw [hg]
  simp

/-- C4 counterexample: the REST login rejects an inactive account with
the 401 Invalid-credentials response even though a user row with the
submitted email exists and the submitted password matches its stored
hash, refuting the claimed if-and-only-if. -/
theorem C4_counterexample :
    login_api_post [⟨1, "", "a@b", bcrypt_hashpw "pw" 0, "", "", false⟩] "a@b" "pw" = none ∧
    ∃ u ∈ [(⟨1, "", "a@b", bcrypt_hashpw "pw" 0, "", "", false⟩ : DjangoUser)],
      u.email = "a@b" ∧ bcrypt_checkpw "pw" u.password = true :=
  ⟨rfl, ⟨⟨1, "", "a@b", bcrypt_hashpw "pw" 0, "", "", false⟩,
    List.mem_singleton_self _, rfl, rfl⟩⟩

/-- C4 (amended): on the raw-SQL service path, login fails with Invalid
credentials exactly when no user row with the submitted email and a
matching password exists, the failure leaves the database untouched, and
success returns the matched user's record with a freshly minted token.
On the REST path that equivalence does not hold: a successful login only
ever authenticates an active account with a matching password whose
username or email equals the submitted email — so an inactive account is
rejected even with a matching email and password, as is any request with
a blank email or password. -/
theorem C4_login_characterization
    (svc : Service) (st : DbState) (now ns : Nat) (email pw : String)
    (vusers : List DjangoUser) (vemail vpw : String)
    (hemail : ∀ u1 ∈ st.users, ∀ u2 ∈ st.users, u1.email = email → u2.email = email → u1 = u2) :
    ((login_user svc st now ns email pw).1 = Except.error "Invalid credentials" ↔
      ¬∃ u ∈ st.users, u.email = email ∧ bcrypt_checkpw pw u.password_hash = true) ∧
    (∀ msg, (login_user svc st now ns email pw).1 = Except.error msg →
      (login_user svc st now ns email pw).2 = st) ∧
    (∀ r, (login_user svc st now ns email pw).1 = Except.ok r →
      ∃ u ∈ st.users, u.email = email ∧ r.user = u.toPublic ∧
        r.token = generate_jwt svc now u.id) ∧
    (∀ u, login_api_post vusers vemail vpw = some u →
      u ∈ vusers ∧ (u.username = vemail ∨ u.email = vemail) ∧
      bcrypt_checkpw vpw u.password = true ∧ u.is_active = true) ∧
    ((¬∃ u ∈ vusers, (u.username = vemail ∨ u.email = vemail) ∧
        bcrypt_checkpw vpw u.password = true ∧ u.is_active = true) →
      login_api_post vusers vemail vpw = none) ∧
    (vemail = "" ∨ vpw = "" → login_api_post vusers vemail vpw = none) := by
  have hmemhead : ∀ u0, (st.users.filter (fun u => u.email == email)).head? = some u0 →
      u0 ∈ st.users ∧ u0.email = email := by
    intro u0 h0
    have hmem : u0 ∈ st.users.filter (fun u => u.email == email) :=
      List.mem_of_mem_head? (by simp [h0])
    rcases List.mem_filter.mp hmem with ⟨h1, h2⟩
    exact ⟨h1, by simpa using h2⟩
  refine ⟨?_, ?_, ?_, ?_, ?_, ?_⟩
  · simp only [login_user]
    cases hh : (st.users.filter (fun u => u.email == email)).head? with
    | none =>
      refine iff_of_true rfl ?_
      rintro ⟨u, hu, hue, hcp⟩
      have hmem : u ∈ st.users.filter (fun w => w.email == email) :=
        List.mem_filter.mpr ⟨hu, by simp [hue]⟩
      rw [List.head?_eq_none_iff.mp hh] at hmem
      cases hmem
    | some u0 =>
      obtain ⟨hu0mem, hu0email⟩ := hmemhead u0 hh
      cases hcp : bcrypt_checkpw pw u0.password_hash with
      | true =>
        refine iff_of_false (by simp [hcp]) ?_
        intro hno
        exact hno ⟨u0, hu0mem, hu0email, hcp⟩
      | false =>
        refine iff_of_true (by simp [hcp]) ?_
        rintro ⟨u, hu, hue, hcpu⟩
        have huu0 : u = u0 := hemail u hu u0 hu0mem hue hu0email
        rw [huu0] at hcpu
        rw [hcpu] at hcp
        cases hcp
  · intro msg hmsg
    simp only [login_user] at hmsg ⊢
    cases hh : (st.users.filter (fun u => u.email == email)).head? with
    | none => rfl
    | some u0 =>
      rw [hh] at hmsg
      cases hcp : bcrypt_checkpw pw u0.password_hash with
      | false => simp [hcp]
      | true =>
        simp [hcp] at hmsg
  · intro r hr
    simp only [login_user] at hr
    cases hh : (st.users.filter (fun u => u.email == email)).head? with
    | none =>
      rw [hh] at hr
      simp at hr
    | some u0 =>
      rw [hh] at hr
      obtain ⟨hu0mem, hu0email⟩ := hmemhead u0 hh
      cases hcp : bcrypt_checkpw pw u0.password_hash with
      | false =>
        simp [hcp] at hr
      | true =>
        simp [hcp] at hr
        refine ⟨u0, hu0mem, hu0email, ?_, ?_⟩ <;> rw [← hr]
  · intro u h
    exact login_api_post_sound vusers vemail vpw u h
  · intro hno
    cases hres : login_api_post vusers vemail vpw with
    | none => rfl
    | some u =>
      obtain ⟨hm, hd, hc, ha⟩ := login_api_post_sound vusers vemail vpw u hres
      exact absurd ⟨u, hm, hd, hc, ha⟩ hno
  · exact login_api_post_blank vusers vemail vpw

theorem C4_login_characterization_witness :
    ((login_user ⟨"sec", 604800⟩
        ⟨[⟨1, "a@b", bcrypt_hashpw "pw" 3, none, none, false, 0, 0⟩], [], [], [], [], []⟩
        0 1 "a@b" "pw").1 = Except.error "Invalid credentials" ↔
      ¬∃ u ∈ [(⟨1, "a@b", bcrypt_hashpw "pw" 3, none, none, false, 0, 0⟩ : UserRow)],
        u.email = "a@b" ∧ bcrypt_checkpw "pw" u.password_hash = true) ∧
    (∀ msg, (login_user ⟨"sec", 604800⟩
        ⟨[⟨1, "a@b", bcrypt_hashpw "pw" 3, none, none, false, 0, 0⟩], [], [], [], [], []⟩
        0 1 "a@b" "pw").1 = Except.error msg →
      (login_user ⟨"sec", 604800⟩
        ⟨[⟨1, "a@b", bcrypt_hashpw "pw" 3, none, none, false, 0, 0⟩], [], [], [], [], []⟩
        0 1 "a@b" "pw").2
        = ⟨[⟨1, "a@b", bcrypt_hashpw "pw" 3, none, none, false, 0, 0⟩], [], [], [], [], []⟩) ∧
    (∀ r, (login_user ⟨"sec", 604800⟩
        ⟨[⟨1, "a@b", bcrypt_hashpw "pw" 3, none, none, false, 0, 0⟩], [], [], [], [], []⟩
        0 1 "a@b" "pw").1 = Except.ok r →
      ∃ u ∈ [(⟨1, "a@b", bcrypt_hashpw "pw" 3, none, none, false, 0, 0⟩ : UserRow)],
        u.email = "a@b" ∧ r.user = u.toPublic ∧
        r.token = generate_jwt ⟨"sec", 604800⟩ 0 u.id) ∧
    (∀ u, login_api_post [⟨1, "", "a@b", bcrypt_hashpw "pw" 0, "", "", true⟩] "a@b" "pw"
        = some u →
      u ∈ [(⟨1, "", "a@b", bcrypt_hashpw "pw" 0, "", "", true⟩ : DjangoUser)] ∧
      (u.username = "a@b" ∨ u.email = "a@b") ∧
      bcrypt_checkpw "pw" u.password = true ∧ u.is_active = true) ∧
    ((¬∃ u ∈ [(⟨1, "", "a@b", bcrypt_hashpw "pw" 0, "", "", true⟩ : DjangoUser)],
        (u.username = "a@b" ∨ u.email = "a@b") ∧
        bcrypt_checkpw "pw" u.password = true ∧ u.is_active = true) →
      login_api_post [⟨1, "", "a@b", bcrypt_hashpw "pw" 0, "", "", true⟩] "a@b" "pw" = none) ∧
    ("a@b" = "" ∨ "pw" = "" →
      login_api_post [⟨1, "", "a@b", bcrypt_hashpw "pw" 0, "", "", true⟩] "a@b" "pw" = none) :=
  C4_login_characterization ⟨"sec", 604800⟩
    ⟨[⟨1, "a@b", bcrypt_hashpw "pw" 3, none, none, false, 0, 0⟩], [], [], [], [], []⟩
    0 1 "a@b" "pw"
    [⟨1, "", "a@b", bcrypt_hashpw "pw" 0, "", "", true⟩] "a@b" "pw"
    (by intro u1 h1 u2 h2 _ _
        rw [List.mem_singleton.mp h1, List.mem_singleton.mp h2])

end Sandy
